import Mathlib

/-!
Shallow embedding of the SD/MMC-over-SPI block storage driver found in
`src/drivers/mmc/spi_mmc.c` (with the response tables from
`src/drivers/mmc/mmc.c` and the lock helpers from
`include/aurora/drivers/spi.h`).

The physical card and SPI wire are modelled by an environment `SpiEnv`
giving the byte shifted in on MISO for every byte slot of the session, a
per-transfer failure flag (DMA timeout / length mismatch), and the
deadline budget of the data-token wait loop.  Driver state `SpiSt`
tracks the wire position, the bus semaphore, and an event trace (lock,
unlock, command frames, byte transfers) so that wire-level properties
can be stated.

Machine integers are modelled as `Nat` with explicit `% 2 ^ 32` / `% 256`
where the C code can overflow or truncates; `int` return codes are `Int`
(0 for success, negative errno otherwise), matching the C convention.

`CONFIG_MMC_CRC_ENABLED` and the `crc7`/`crc16` implementations are not
part of the sources under `src/` (only prototypes in `aurora/crc.h`), so
the embedding models the configuration with command/data CRC checking
compiled out, which is the `#else` branch of the source.  No claim
depends on the CRC branch.
-/

set_option autoImplicit false

namespace Aurora

/-! ### Constants from the headers -/

/-- errno value for transport errors, C constant EIO (returned negated). -/
def errIo : Int := 5

/-- errno value for bounded waits that expire, C constant ETIMEDOUT (returned negated). -/
def errTimedOut : Int := 110

/-- errno value for out-of-range arguments, C constant EINVAL (returned negated). -/
def errInval : Int := 22

/-- errno value for operations on an uninitialized device, C constant EHOSTDOWN (returned negated). -/
def errHostDown : Int := 112

/-- R1 status flag: card in idle state (`spi_mmc.h`, bit 0). -/
def R1_SPI_IDLE : Nat := 1

/-- R1 status flag: illegal command (`spi_mmc.h`, bit 2). -/
def R1_SPI_ILLEGAL_COMMAND : Nat := 4

/-- R1 bit 7 is always zero on the wire; the driver reuses it as a
software error flag (`spi_mmc.h`). -/
def R1_SPI_ERROR : Nat := 128

/-- Command indices used by the driver (`mmc.h`). -/
def MMC_CMD_GO_IDLE_STATE : Nat := 0
def MMC_CMD_SEND_EXT_CSD : Nat := 8
def MMC_CMD_SEND_CSD : Nat := 9
def MMC_CMD_STOP_TRANSMISSION : Nat := 12
def MMC_CMD_READ_SINGLE_BLOCK : Nat := 17
def MMC_CMD_READ_MULTIPLE_BLOCK : Nat := 18
def MMC_CMD_APP_CMD : Nat := 55
def MMC_CMD_SPI_READ_OCR : Nat := 58
def SD_CMD_APP_SEND_OP_COND : Nat := 41

/-- Data-phase start token polled for by `spi_mmc_wait_token`.
Modelled from the spec: the constant `SPI_MMC_START_BLOCK` is referenced
by `spi_mmc.c` but defined in a header absent from `src/`; the spec's
wire-protocol section fixes the single-block start token at `0xFE`. -/
def SPI_MMC_START_BLOCK : Nat := 0xFE

/-- MMC response classes.
Modelled from the spec: the `mmc_response_t` enumeration is referenced by
`mmc.c`/`spi_mmc.c` but declared in a header absent from `src/`; only the
constructors named by the code are needed (the spec lists
`{R1, R1b, R2, R3, R6, R7, None}`), never their numeric values. -/
inductive MmcResp where
  | r1
  | r1b
  | r2
  | r3
  | r6
  | r7
  | none
deriving DecidableEq, Repr

/-- Card classification produced by bring-up.
Modelled from the spec: the `SD_CARD_TYPE_*` constants are referenced by
`spi_mmc.c` but defined in a header absent from `src/`; the code only
ever compares and assigns them, so an enumeration of the spec's
`Unknown | SD1 | SD2 | SDHC` is faithful. -/
inductive CardType where
  | unknown
  | sd1
  | sd2
  | sdhc
deriving DecidableEq, Repr

/-- `mmc_cmd_get_resp_type` from `mmc.c`: static command-index → response
class table.  Commands absent from the switch (notably ACMD41 = 41) fall
through to `MMC_RESP_NONE`. -/
def mmc_cmd_get_resp_type (cmd : Nat) : MmcResp :=
  if cmd = 1 ∨ cmd = 13 ∨ cmd = 16 ∨ cmd = 17 ∨ cmd = 18 ∨ cmd = 24 ∨
     cmd = 25 ∨ cmd = 55 ∨ cmd = 58 then .r1
  else if cmd = 7 ∨ cmd = 12 ∨ cmd = 38 then .r1b
  else if cmd = 2 ∨ cmd = 9 ∨ cmd = 10 then .r2
  else if cmd = 3 then .r6
  else if cmd = 8 then .r7
  else .none

/-- `spi_mmc_resp_size` from `spi_mmc.c`: response length in bytes; the
default branch reads at least one byte. -/
def spi_mmc_resp_size (resp_type : MmcResp) : Nat :=
  match resp_type with
  | .r1 | .r1b => 1
  | .r2 => 2
  | .r3 | .r6 | .r7 => 5
  | .none => 1

/-- `mmc_get_resp_size` from `mmc.c` (used by `spi_mmc_sectors` to size
its response buffer; note it differs from `spi_mmc_resp_size` on R3/R6/R7
and on the default). -/
def mmc_get_resp_size (resp_type : MmcResp) : Nat :=
  match resp_type with
  | .r1 | .r1b => 1
  | .r3 | .r6 | .r7 => 4
  | .r2 => 2
  | .none => 0

/-- The 48-bit command frame `struct spi_mmc_message` (bit-fields widened
to `Nat`; truncation to the packed widths happens at serialization, as in
the byte-building code of `spi_mmc_send_cmd`). -/
structure SpiMmcMessage where
  start : Nat
  cmd : Nat
  arg : Nat
  crc7 : Nat
  stop : Nat
deriving DecidableEq, Repr

/-- The `SPI_MMC_CMD_CRC` constructor macro from `spi_mmc.h`. -/
def SPI_MMC_CMD_CRC (cmd arg crc : Nat) : SpiMmcMessage :=
  { start := 1, cmd := cmd, arg := arg, crc7 := crc, stop := 1 }

/-- The `SPI_MMC_CMD` constructor macro (placeholder CRC `0b1111111`). -/
def SPI_MMC_CMD (cmd arg : Nat) : SpiMmcMessage :=
  SPI_MMC_CMD_CRC cmd arg 0x7f

/-- C conversion of an `int` return code into a `uint8_t` variable, as in
`spi_mmc_voltage_select`'s `uint8_t ret`. -/
def u8 (i : Int) : Nat := (i % 256).toNat

/-! ### Wire environment, driver state, events -/

/-- One observable action of the driver on the shared bus. -/
inductive Ev where
  /-- `spi_lock` call; `ok` is the (possibly ignored) acquisition result. -/
  | lock (ok : Bool)
  /-- `spi_unlock` call. -/
  | unlock
  /-- A 6-byte command frame was issued (index, 32-bit argument, bytes). -/
  | cmd (idx arg : Nat) (packet : List Nat)
  /-- `spi_mmc_transfer` of `len` bytes; `holding` records whether this
  task holds the bus lock at that moment. -/
  | xfer (len : Nat) (holding : Bool)
deriving DecidableEq, Repr

/-- The mock card / wire: `rx n` is the byte shifted in on the `n`-th
byte slot of the session, `xferFail k` injects a transport-level failure
into the `k`-th `spi_mmc_transfer` call, `tokenFuel` is how many extra
polls the wall-clock deadline of `spi_mmc_wait_token` admits, and
`spiInitialized` is `ctx->spi->state->initialized`. -/
structure SpiEnv where
  rx : Nat → Nat
  xferFail : Nat → Bool
  tokenFuel : Nat
  spiInitialized : Bool

/-- Driver-visible mutable state: wire position, transfer-call counter,
bus semaphore (`true` iff a permit is available), whether this task holds
the lock, and the event trace. -/
structure SpiSt where
  pos : Nat
  call : Nat
  sem : Bool
  holding : Bool
  trace : List Ev
deriving DecidableEq, Repr

/-- `struct mmc_dev` restricted to the fields `spi_mmc.c` reads/writes. -/
structure MmcDev where
  version : CardType
  blksize : Nat
  num_blocks : Nat
  initialized : Bool
deriving DecidableEq, Repr

/-- `spi_lock` from `spi.h`: `sem_acquire_timeout_ms(&sem, 1)` — returns
`false` without acquiring when the semaphore is contended. -/
def spi_lock (st : SpiSt) : Bool × SpiSt :=
  if st.sem then
    (true, { st with sem := false, holding := true,
                     trace := st.trace ++ [Ev.lock true] })
  else
    (false, { st with trace := st.trace ++ [Ev.lock false] })

/-- `spi_unlock` from `spi.h`: `sem_release` — unconditionally releases,
whether or not this task acquired. -/
def spi_unlock (st : SpiSt) : SpiSt :=
  { st with sem := true, holding := false, trace := st.trace ++ [Ev.unlock] }

/-- `spi_mmc_transfer`: shift `len` bytes; the received bytes come from
the environment's MISO stream.  Chip-select sequencing has no observable
effect in the model.  A failure injected by `xferFail` yields the negated EIO code
(polled length mismatch / DMA timeout), as in the source. -/
def spi_mmc_transfer (env : SpiEnv) (st : SpiSt) (len : Nat) :
    Int × List Nat × SpiSt :=
  let bytes := (List.range len).map (fun i => env.rx (st.pos + i) % 256)
  let ret : Int := if env.xferFail st.call then -errIo else 0
  (ret, bytes,
    { st with pos := st.pos + len, call := st.call + 1,
              trace := st.trace ++ [Ev.xfer len st.holding] })

/-! ### Command framing (`spi_mmc_send_cmd`) -/

/-- The retry loop of `spi_mmc_wait_ready`: up to `fuel` single-byte
reads, breaking on the first nonzero byte; yields the final `resp`
value.  Reaching fuel 0 means every byte read was `0x00`. -/
def waitReadyLoop (env : SpiEnv) : Nat → SpiSt → Nat × SpiSt
  | 0, st => (0, st)
  | fuel + 1, st =>
    let t := spi_mmc_transfer env st 1
    let resp := t.2.1.headD 0
    if resp ≠ 0 then (resp, t.2.2) else waitReadyLoop env fuel t.2.2

/-- `spi_mmc_wait_ready`: poll up to 10 bytes for the card to release the
bus; the negated EIO code when the final byte is strictly between
`0x00` and `0xFF`. -/
def spi_mmc_wait_ready (env : SpiEnv) (st : SpiSt) : Int × SpiSt :=
  let r := waitReadyLoop env 10 st
  (if 0 < r.1 ∧ r.1 ≠ 0xff then -errIo else 0, r.2)

/-- The trailing-byte reads of a response (`for j in 1..resp_size`), one
single-byte transfer each. -/
def readBytes (env : SpiEnv) : Nat → SpiSt → List Nat × SpiSt
  | 0, st => ([], st)
  | n + 1, st =>
    let t := spi_mmc_transfer env st 1
    let rest := readBytes env n t.2.2
    (t.2.1.headD 0xff :: rest.1, rest.2)

/-- The NCR response-poll loop of `spi_mmc_send_cmd`: up to `fuel`
(called with 16) single-byte reads looking for a byte with bit 7 clear;
on success the remaining `resp_size - 1` bytes are read.  Yields the
final `response` byte and the `rx` buffer (left at its `0xFF` memset
fill when no valid byte arrived). -/
def spi_mmc_poll_resp (env : SpiEnv) (resp_size : Nat) :
    Nat → SpiSt → Nat × List Nat × SpiSt
  | 0, st => (0xff, List.replicate resp_size 0xff, st)
  | fuel + 1, st =>
    let t := spi_mmc_transfer env st 1
    let response := t.2.1.headD 0xff
    if response &&& 0x80 = 0 then
      let rest := readBytes env (resp_size - 1) t.2.2
      (response, response :: rest.1, rest.2)
    else if fuel = 0 then (response, List.replicate resp_size 0xff, t.2.2)
    else spi_mmc_poll_resp env resp_size fuel t.2.2

/-- The 6-byte wire frame built by `spi_mmc_send_cmd` (CRC checking is
compiled out, so byte 5 carries the message's own `crc7` field). -/
def cmdPacketOf (msg : SpiMmcMessage) : List Nat :=
  [((msg.start <<< 6) ||| msg.cmd) % 256,
   (msg.arg >>> 24) % 256,
   (msg.arg >>> 16) % 256,
   (msg.arg >>> 8) % 256,
   msg.arg % 256,
   ((msg.crc7 <<< 1) ||| msg.stop) % 256]

/-- The frame-transmit loop: one single-byte transfer per packet byte
(the transmitted byte itself is invisible to the environment model). -/
def sendPacketBytes (env : SpiEnv) : List Nat → SpiSt → SpiSt
  | [], st => st
  | _b :: rest, st => sendPacketBytes env rest (spi_mmc_transfer env st 1).2.2

/-- The non-ACMD body of `spi_mmc_send_cmd`: build and send the frame,
discard the stuff byte after CMD12, poll for the response, and return
`-errIo` iff the final response byte still has bit 7 set. -/
def spi_mmc_send_cmd_raw (env : SpiEnv) (msg : SpiMmcMessage) (st : SpiSt) :
    Int × List Nat × SpiSt :=
  let resp_size := spi_mmc_resp_size (mmc_cmd_get_resp_type msg.cmd)
  let cmdPacket := cmdPacketOf msg
  let st1 := { st with trace := st.trace ++ [Ev.cmd msg.cmd msg.arg cmdPacket] }
  let st2 := sendPacketBytes env cmdPacket st1
  let st3 := if msg.cmd = MMC_CMD_STOP_TRANSMISSION
             then (spi_mmc_transfer env st2 1).2.2 else st2
  let p := spi_mmc_poll_resp env resp_size 16 st3
  ((if p.1 &&& 0x80 ≠ 0 then -errIo else 0), p.2.1, p.2.2)

/-- `spi_mmc_send_cmd`: for an ACMD, first send CMD55 and wait for the
card to be ready (failures yield the negated EIO code resp. the positive
`R1_SPI_ERROR`), then fall through to the raw command. -/
def spi_mmc_send_cmd (env : SpiEnv) (msg : SpiMmcMessage) (is_acmd : Bool)
    (st : SpiSt) : Int × List Nat × SpiSt :=
  if is_acmd then
    let resp_size := spi_mmc_resp_size (mmc_cmd_get_resp_type msg.cmd)
    let cmd55 := SPI_MMC_CMD MMC_CMD_APP_CMD 0
    let t55 := spi_mmc_send_cmd_raw env cmd55 st
    if t55.1 ≠ 0 then (-errIo, List.replicate resp_size 0xff, t55.2.2)
    else
      let w := spi_mmc_wait_ready env t55.2.2
      if w.1 ≠ 0 then ((R1_SPI_ERROR : Nat), List.replicate resp_size 0xff, w.2)
      else spi_mmc_send_cmd_raw env msg w.2
  else spi_mmc_send_cmd_raw env msg st

/-- `spi_mmc_send_msg`: send a non-ACMD command. -/
def spi_mmc_send_msg (env : SpiEnv) (msg : SpiMmcMessage) (st : SpiSt) :
    Int × List Nat × SpiSt :=
  spi_mmc_send_cmd env msg false st

/-! ### Bring-up protocol -/

/-- The CMD0 frame of `spi_mmc_send_reset` (fixed well-known CRC `0x4A`). -/
def resetCmd : SpiMmcMessage := SPI_MMC_CMD_CRC MMC_CMD_GO_IDLE_STATE 0 0x4A

/-- The retry loop of `spi_mmc_send_reset`: up to 10 CMD0 attempts (with
an inter-attempt nop delay), breaking only when the response byte equals
`R1_SPI_IDLE` exactly; yields the final `resp` byte. -/
def resetLoop (env : SpiEnv) : Nat → SpiSt → Nat × SpiSt
  | 0, st => (0xff, st)
  | fuel + 1, st =>
    let t := spi_mmc_send_msg env resetCmd st
    let resp := t.2.1.headD 0xff
    if resp = R1_SPI_IDLE then (resp, t.2.2)
    else if fuel = 0 then (resp, t.2.2)
    else resetLoop env fuel t.2.2

/-- `spi_mmc_send_reset`: CMD0 with retries; `-errIo` when the final
response still has the software error bit, a negated ETIMEDOUT when a valid
response never showed the idle bit, 0 otherwise. -/
def spi_mmc_send_reset (env : SpiEnv) (st : SpiSt) : Int × SpiSt :=
  let r := resetLoop env 10 st
  (if r.1 &&& R1_SPI_ERROR ≠ 0 then -errIo
   else if r.1 &&& R1_SPI_IDLE = 0 then -errTimedOut
   else 0, r.2)

/-- The ACMD41 retry loop of `spi_mmc_voltage_select` (`num_retries`
post-incremented against `max_num_retries = 10`): the loop body repeats
only while the captured response byte is still `0xFF`; a command error
exits with a negated EIO, exceeding the budget with a negated ETIMEDOUT.  Structural
recursion needs an explicit bound `left`; the loop's own retry check
always fires first (each pass increments `n`, and `10 ≤ n` exits), so
with `left = 11 - n` the `left = 0` base case is unreachable. -/
def acmd41LoopAux (env : SpiEnv) (acmd41 : SpiMmcMessage) :
    Nat → Nat → SpiSt → Int × SpiSt
  | 0, _n, st => (-errTimedOut, st)
  | left + 1, n, st =>
    let t := spi_mmc_send_cmd env acmd41 true st
    let response := t.2.1.headD 0xff
    if u8 t.1 ≠ 0 then (-errIo, t.2.2)
    else if 10 ≤ n then (-errTimedOut, t.2.2)
    else if response = 0xff then acmd41LoopAux env acmd41 left (n + 1) t.2.2
    else (0, t.2.2)

/-- The ACMD41 loop entered at retry count `n`. -/
def acmd41Loop (env : SpiEnv) (acmd41 : SpiMmcMessage) (n : Nat)
    (st : SpiSt) : Int × SpiSt :=
  acmd41LoopAux env acmd41 (11 - n) n st

/-- `spi_mmc_voltage_select`: CMD8 voltage check and classification,
ACMD41 operating-condition loop, and the CMD58 capacity probe for SD2
cards.  Returns the driver status together with the updated device. -/
def spi_mmc_voltage_select (env : SpiEnv) (st : SpiSt) (dev : MmcDev) :
    Int × MmcDev × SpiSt :=
  let cmd8 := SPI_MMC_CMD_CRC MMC_CMD_SEND_EXT_CSD 0x1AA 0x43
  let cmd58 := SPI_MMC_CMD MMC_CMD_SPI_READ_OCR 0
  let t8 := spi_mmc_send_cmd env cmd8 false st
  let ret := u8 t8.1
  let cmd8_resp := t8.2.1
  let classified : Option MmcDev :=
    if ret ≠ 0 ∨ cmd8_resp.headD 0xff &&& R1_SPI_ILLEGAL_COMMAND ≠ 0 then
      some { dev with version := .sd1 }
    else if cmd8_resp.getD 4 0xff &&& 0xAA ≠ 0 then
      some { dev with version := .sd2 }
    else none
  match classified with
  | Option.none => (-errIo, dev, t8.2.2)
  | Option.some dev1 =>
    let acmd41 := SPI_MMC_CMD SD_CMD_APP_SEND_OP_COND
      (if dev1.version = CardType.sd2 then 0x40000000 else 0)
    let la := acmd41Loop env acmd41 0 t8.2.2
    if la.1 ≠ 0 then (la.1, dev1, la.2)
    else if dev1.version = CardType.sd2 then
      let t58 := spi_mmc_send_msg env cmd58 la.2
      if t58.1 ≠ 0 then (-errIo, dev1, t58.2.2)
      else
        let b := t58.2.1.headD 0xff
        let dev2 := if b &&& R1_SPI_ERROR = 0 ∧ b &&& 0xC0 ≠ 0
                    then { dev1 with version := .sdhc } else dev1
        (0, dev2, t58.2.2)
    else (0, dev1, la.2)

/-- The all-ones 6-byte message used for the 74-clock power-settle
phase of `spi_mmc_init` (`memset(&spi_init_message, 0xff, 6)` read back
through the packed bit-fields). -/
def initMsg : SpiMmcMessage :=
  { start := 3, cmd := 0x3f, arg := 0xffffffff, crc7 := 0x7f, stop := 1 }

/-- `spi_mmc_init`: lock the bus (acquisition result ignored, as in the
source), drop to 400 kHz, clock out `(74 / 48) + 1 = 2` all-ones frames,
send CMD0 — whose return value the source discards — then run the
voltage-select negotiation, restore the baud rate and unlock. -/
def spi_mmc_init (env : SpiEnv) (st : SpiSt) (dev : MmcDev) :
    Int × MmcDev × SpiSt :=
  let st1 := (spi_lock st).2
  let st2 := (spi_mmc_send_msg env initMsg st1).2.2
  let st3 := (spi_mmc_send_msg env initMsg st2).2.2
  let st4 := (spi_mmc_send_reset env st3).2
  let v := spi_mmc_voltage_select env st4 dev
  (v.1, v.2.1, spi_unlock v.2.2)

/-- `spi_mmc_probe`: one-time-initialization guard (the driver-init mutex
has no observable effect in a single-task run); a second call while
`initialized` is set returns 0 untouched. -/
def spi_mmc_probe (env : SpiEnv) (st : SpiSt) (dev : MmcDev) :
    Int × MmcDev × SpiSt :=
  if dev.initialized then (0, dev, st)
  else
    let r := spi_mmc_init env st dev
    if r.1 = 0 then (0, { r.2.1 with initialized := true }, r.2.2)
    else (r.1, r.2.1, r.2.2)

/-! ### Block I/O engine -/

/-- The deadline-bounded token poll of `spi_mmc_wait_token`: the do-while
body runs at least once; `fuel` is the number of additional polls the
wall-clock deadline admits before `-errTimedOut`. -/
def waitTokenLoop (env : SpiEnv) (token : Nat) :
    Nat → SpiSt → Int × SpiSt
  | 0, st =>
    let t := spi_mmc_transfer env st 1
    if t.2.1.headD 0xff = token then (0, t.2.2) else (-errTimedOut, t.2.2)
  | fuel + 1, st =>
    let t := spi_mmc_transfer env st 1
    if t.2.1.headD 0xff = token then (0, t.2.2)
    else waitTokenLoop env token fuel t.2.2

/-- `spi_mmc_wait_token`: poll for a token byte within the deadline
window provided by the environment. -/
def spi_mmc_wait_token (env : SpiEnv) (st : SpiSt) (token : Nat) :
    Int × SpiSt :=
  waitTokenLoop env token env.tokenFuel st

/-- `__spi_mmc_read_block`: wait for the `0xFE` start token, shift one
block of `len` bytes, then read (and, with CRC checking compiled out,
discard) the two trailing CRC16 bytes.  Returns the block's bytes. -/
def spi_mmc_read_block (env : SpiEnv) (st : SpiSt) (len : Nat) :
    Int × List Nat × SpiSt :=
  let w := spi_mmc_wait_token env st SPI_MMC_START_BLOCK
  if w.1 ≠ 0 then (w.1, [], w.2)
  else
    let t := spi_mmc_transfer env w.2 len
    if t.1 ≠ 0 then (t.1, t.2.1, t.2.2)
    else
      let c1 := spi_mmc_transfer env t.2.2 1
      let c2 := spi_mmc_transfer env c1.2.2 1
      (0, t.2.1, c2.2.2)

/-- The per-block receive loop of `spi_mmc_read_blocks` (`while
(blockCnt)`): a failing block sets `rd_status = -errIo` and breaks; the
bytes delivered so far are kept. -/
def readBlocksLoop (env : SpiEnv) (blksize : Nat) :
    Nat → SpiSt → Int × List Nat × SpiSt
  | 0, st => (0, [], st)
  | n + 1, st =>
    let b := spi_mmc_read_block env st blksize
    if b.1 ≠ 0 then (-errIo, b.2.1, b.2.2)
    else
      let rest := readBlocksLoop env blksize n b.2.2
      (rest.1, b.2.1 ++ rest.2.1, rest.2.2)

/-- `spi_mmc_read_blocks`: bounds check (32-bit sum against the 64-bit
`num_blocks`), lock (acquisition result ignored, as in the source),
initialization checks, SDHC block- vs SDSC byte-addressing (32-bit
multiply), CMD17/CMD18, the per-block loop, and CMD12 for multi-block
transfers whose status is folded into the return value. -/
def spi_mmc_read_blocks (env : SpiEnv) (st : SpiSt) (dev : MmcDev)
    (blk : Nat) (len : Nat) : Int × List Nat × SpiSt :=
  let cmd12 := SPI_MMC_CMD MMC_CMD_STOP_TRANSMISSION 0
  if (blk + len) % 2 ^ 32 > dev.num_blocks then (-errInval, [], st)
  else
    let st1 := (spi_lock st).2
    if ¬env.spiInitialized ∨ ¬dev.initialized then
      (-errHostDown, [], spi_unlock st1)
    else
      let arg := if dev.version = CardType.sdhc then blk
                 else (blk * dev.blksize) % 2 ^ 32
      let read_cmd := SPI_MMC_CMD
        (if len > 1 then MMC_CMD_READ_MULTIPLE_BLOCK
         else MMC_CMD_READ_SINGLE_BLOCK) arg
      let tc := spi_mmc_send_cmd env read_cmd false st1
      if tc.1 ≠ 0 then (-errIo, [], spi_unlock tc.2.2)
      else
        let lr := readBlocksLoop env dev.blksize len tc.2.2
        let fin := if len > 1
                   then let t12 := spi_mmc_send_cmd env cmd12 false lr.2.2
                        (t12.1, t12.2.2)
                   else (tc.1, lr.2.2)
        ((if lr.1 ≠ 0 then lr.1 else fin.1), lr.2.1, spi_unlock fin.2)

/-! ### Card geometry (CSD decoder) -/

/-- `ext_bits`: extract the bit-field `[msb:lsb]` from a 16-byte buffer
whose bit 0 lives in the last byte (`byte = 15 - (position >> 3)`).
`size` mirrors the C `1 + msb - lsb` (which is 0 when `lsb = msb + 1`,
as in the swapped-argument call site). -/
def ext_bits (data : List Nat) (msb lsb : Nat) : Nat :=
  let size := 1 + msb - lsb
  (List.range size).foldl
    (fun bits i =>
      let position := lsb + i
      let byte := 15 - (position >>> 3)
      let bit := position &&& 0x7
      let value := (data.getD byte 0 >>> bit) &&& 1
      bits ||| (value <<< i))
    0

/-- `spi_mmc_sectors`: CMD9 followed by a raw 16-byte CSD read, then the
structure-version switch over `ext_bits csd 126 127`.  Any failure
leaves `blocks = 0`; the result is unconditionally cached into
`dev->num_blocks` on every exit path that reaches `free_response`. -/
def spi_mmc_sectors (env : SpiEnv) (st : SpiSt) (dev : MmcDev) :
    Nat × MmcDev × SpiSt :=
  let cmd9 := SPI_MMC_CMD MMC_CMD_SEND_CSD 0
  let st1 := (spi_lock st).2
  let t9 := spi_mmc_send_cmd env cmd9 false st1
  if t9.1 ≠ 0 then (0, { dev with num_blocks := 0 }, spi_unlock t9.2.2)
  else
    let tc := spi_mmc_transfer env t9.2.2 16
    if tc.1 ≠ 0 then (0, { dev with num_blocks := 0 }, spi_unlock tc.2.2)
    else
      let csd := tc.2.1
      let csd_structure := ext_bits csd 126 127
      let blocks :=
        if csd_structure = 0 then
          let c_size := ext_bits csd 73 62
          let c_size_mult := ext_bits csd 49 47
          let read_bl_len := ext_bits csd 83 80
          let block_len := 1 <<< read_bl_len
          let mult := 1 <<< (c_size_mult + 2)
          let blocknr := (c_size + 1) * mult
          let capacity := blocknr * block_len
          capacity / dev.blksize
        else if csd_structure = 1 then
          (ext_bits csd 69 48 + 1) <<< 10
        else 0
      (blocks, { dev with num_blocks := blocks }, spi_unlock tc.2.2)

/-! ### Concrete mock environments and devices

Each environment is a mock card: `rx n` is the byte the card drives on
MISO during the `n`-th byte slot of the session.  Byte positions follow
the driver's own consumption order (6 frame bytes per command, then the
NCR poll bytes, then any trailing response/data bytes). -/

/-- A failure-free mock bus around a MISO byte function. -/
def mkEnv (f : Nat → Nat) : SpiEnv :=
  { rx := f, xferFail := fun _ => false, tokenFuel := 5,
    spiInitialized := true }

/-- Fresh driver state: wire position 0, semaphore free, empty trace. -/
def st0 : SpiSt := ⟨0, 0, true, false, []⟩

/-- A freshly created device (`spi_mmc_drv_init` zeroes the state and
sets `blksize = BLOCK_SIZE_SD = 512`). -/
def dev0 : MmcDev := ⟨CardType.unknown, 512, 0, false⟩

/-- Mock card for the reset-timeout run: every byte is `0x00` (a valid
R1 with the idle bit never set, so all 10 CMD0 attempts fail), except
that the CMD8 echo byte (slot 94) carries `0xAA` so the rest of
bring-up succeeds as an SD2 card. -/
def env1 : SpiEnv := mkEnv fun n => if n = 94 then 0xAA else 0x00

/-- Mock card for a 2-block read whose data phases succeed (tokens at
slots 7 and 522, 512 payload bytes of `0xAB` each) but whose CMD12 stop
command gets no response (all `0xFF` from slot 1037 on). -/
def env2 : SpiEnv := mkEnv fun n =>
  if n = 7 ∨ n = 522 then 0xFE
  else if (8 ≤ n ∧ n ≤ 519) ∨ (523 ≤ n ∧ n ≤ 1034) then 0xAB
  else if n ≥ 1037 then 0xff else 0x00

/-- An initialized SD2 card device with 10 known blocks. -/
def dev2 : MmcDev := ⟨CardType.sd2, 512, 10, true⟩

/-- Mock card for the OCR-read step: bring-up answers everything with
`0x00` (SD2 via the `0xAA` echo at slot 10), the CMD58 R1 byte at slot
41 is the parameter `b58`, and from slot 42 on the card holds its OCR
ready with the top byte `0xC0` (power-up done + CCS set). -/
def env3 (b58 : Nat) : SpiEnv := mkEnv fun n =>
  if n = 10 then 0xAA else if n = 41 then b58
  else if n ≥ 42 then 0xC0 else 0x00

/-- Mock card that answers every poll byte with `0x01` (R1 idle/busy
still set): the CMD8 echo at slot 10 classifies it SD2 and the
`wait_ready` byte at slot 18 is `0xFF`; every ACMD41 response is the
busy `0x01`. -/
def env4 : SpiEnv := mkEnv fun n =>
  if n = 10 then 0xAA else if n = 18 then 0xff else 0x01

/-- Mock card family for the CMD8 classification: identical to `env4`
except that the R7 echo byte at slot 10 is the parameter `b`. -/
def env5 (b : Nat) : SpiEnv := mkEnv fun n =>
  if n = 10 then b else if n = 18 then 0xff else 0x01

/-- Mock card whose CMD8 R1 (slot 6) carries the illegal-command bit. -/
def env5i : SpiEnv := mkEnv fun n =>
  if n = 6 then 0x05 else if n = 18 then 0xff else 0x01

/-- A version-1 (SDHC/SDXC) CSD register image: bits [127:126] = 01 and
C_SIZE bits [69:48] = 0x1000, reverse-byte-ordered as the driver reads
it (bit 126 is bit 6 of byte 0; bit 60 is bit 4 of byte 8). -/
def csdV1 : List Nat := [0x40, 0, 0, 0, 0, 0, 0, 0, 0x10, 0, 0, 0, 0, 0, 0, 0]

/-- A version-0 (standard capacity) CSD register image with
`C_SIZE = 0x3AB`, `C_SIZE_MULT = 2`, `READ_BL_LEN = 9` (the synthetic
register of the spec's CSD v0 test vector). -/
def csdV0 : List Nat := [0, 0, 0, 0, 0, 0x09, 0, 0xEA, 0xC0, 0x01, 0, 0, 0, 0, 0, 0]

/-- Mock card answering CMD9 immediately (R1 `0x00` at slot 6) and
delivering the given 16-byte CSD at slots 8–23. -/
def env7 (csd : List Nat) : SpiEnv := mkEnv fun n =>
  if 8 ≤ n ∧ n ≤ 23 then csd.getD (n - 8) 0 else 0

/-- An initialized SD2 device used for geometry queries. -/
def dev7 : MmcDev := ⟨CardType.sd2, 512, 0, true⟩

/-- Mock card for a clean single-block read: CMD17 accepted at slot 6,
token at slot 7, 512 payload bytes of `0xCD`. -/
def env9 : SpiEnv := mkEnv fun n =>
  if n = 7 then 0xFE else if 8 ≤ n ∧ n ≤ 519 then 0xCD else 0x00

/-- Driver state in which another task currently holds the bus
semaphore (`sem = false`), as seen by a second caller. -/
def st9 : SpiSt := ⟨0, 0, false, false, []⟩

/-- An initialized SD2 card device with 10 known blocks (second bus
user's view). -/
def dev9 : MmcDev := ⟨CardType.sd2, 512, 10, true⟩

/-- A dead mock card: every byte reads back `0xFF`, so no command ever
receives a valid response byte. -/
def envA : SpiEnv := mkEnv fun _ => 0xff

/-- An initialized device holding a previously decoded block count. -/
def devN : MmcDev := ⟨CardType.sd2, 512, 7, true⟩

/-- The command indices issued on the wire, in order. -/
def cmdIdxList (t : List Ev) : List Nat :=
  t.filterMap fun e => match e with | Ev.cmd i _ _ => some i | _ => none

/-! ### Trace structure lemmas

Every driver operation only appends to the event trace; the following
lemmas expose the prefix each operation leaves.  They let wire-level
statements ("the first command issued after taking the lock is …") be
proved for an arbitrary environment. -/

theorem spi_lock_trace (st : SpiSt) :
    ((spi_lock st).2).trace = st.trace ++ [Ev.lock st.sem] := by
  by_cases h : st.sem <;> simp [spi_lock, h]

theorem spi_unlock_trace (st : SpiSt) :
    (spi_unlock st).trace = st.trace ++ [Ev.unlock] := rfl

theorem spi_mmc_transfer_trace (env : SpiEnv) (st : SpiSt) (len : Nat) :
    ((spi_mmc_transfer env st len).2.2).trace
      = st.trace ++ [Ev.xfer len st.holding] := rfl

theorem sendPacketBytes_trace (env : SpiEnv) :
    ∀ (l : List Nat) (st : SpiSt),
      ∃ t, (sendPacketBytes env l st).trace = st.trace ++ t := by
  intro l
  induction l with
  | nil => intro st; exact ⟨[], by simp [sendPacketBytes]⟩
  | cons b rest ih =>
    intro st
    obtain ⟨t, ht⟩ := ih ((spi_mmc_transfer env st 1).2.2)
    refine ⟨Ev.xfer 1 st.holding :: t, ?_⟩
    simp [sendPacketBytes, ht, spi_mmc_transfer_trace]

theorem readBytes_trace (env : SpiEnv) :
    ∀ (n : Nat) (st : SpiSt),
      ∃ t, ((readBytes env n st).2).trace = st.trace ++ t := by
  intro n
  induction n with
  | zero => intro st; exact ⟨[], by simp [readBytes]⟩
  | succ m ih =>
    intro st
    obtain ⟨t, ht⟩ := ih ((spi_mmc_transfer env st 1).2.2)
    refine ⟨Ev.xfer 1 st.holding :: t, ?_⟩
    simp [readBytes, ht, spi_mmc_transfer_trace]

theorem spi_mmc_poll_resp_trace (env : SpiEnv) (resp_size : Nat) :
    ∀ (fuel : Nat) (st : SpiSt),
      ∃ t, ((spi_mmc_poll_resp env resp_size fuel st).2.2).trace
        = st.trace ++ t := by
  intro fuel
  induction fuel with
  | zero => intro st; exact ⟨[], by simp [spi_mmc_poll_resp]⟩
  | succ f ih =>
    intro st
    simp only [spi_mmc_poll_resp]
    by_cases h : ((spi_mmc_transfer env st 1).2.1.headD 0xff) &&& 0x80 = 0
    · rw [if_pos h]
      obtain ⟨t, ht⟩ := readBytes_trace env (resp_size - 1)
        ((spi_mmc_transfer env st 1).2.2)
      exact ⟨Ev.xfer 1 st.holding :: t,
        by simp [ht, spi_mmc_transfer_trace]⟩
    · rw [if_neg h]
      by_cases h0 : f = 0
      · rw [if_pos h0]
        exact ⟨[Ev.xfer 1 st.holding], by simp [spi_mmc_transfer_trace]⟩
      · rw [if_neg h0]
        obtain ⟨t, ht⟩ := ih ((spi_mmc_transfer env st 1).2.2)
        exact ⟨Ev.xfer 1 st.holding :: t,
          by simp [ht, spi_mmc_transfer_trace]⟩

theorem spi_mmc_send_cmd_raw_trace (env : SpiEnv) (msg : SpiMmcMessage)
    (st : SpiSt) :
    ∃ t, ((spi_mmc_send_cmd_raw env msg st).2.2).trace
      = st.trace ++ Ev.cmd msg.cmd msg.arg (cmdPacketOf msg) :: t := by
  simp only [spi_mmc_send_cmd_raw]
  obtain ⟨t2, ht2⟩ := sendPacketBytes_trace env (cmdPacketOf msg)
    { st with trace := st.trace ++ [Ev.cmd msg.cmd msg.arg (cmdPacketOf msg)] }
  by_cases h12 : msg.cmd = MMC_CMD_STOP_TRANSMISSION
  · rw [if_pos h12]
    obtain ⟨t3, ht3⟩ := spi_mmc_poll_resp_trace env
      (spi_mmc_resp_size (mmc_cmd_get_resp_type msg.cmd)) 16
      ((spi_mmc_transfer env (sendPacketBytes env (cmdPacketOf msg)
        { st with trace := st.trace ++ [Ev.cmd msg.cmd msg.arg (cmdPacketOf msg)] }) 1).2.2)
    refine ⟨t2 ++ Ev.xfer 1 (sendPacketBytes env (cmdPacketOf msg)
      { st with trace := st.trace ++ [Ev.cmd msg.cmd msg.arg (cmdPacketOf msg)] }).holding :: t3, ?_⟩
    simp [ht3, spi_mmc_transfer_trace, ht2]
  · rw [if_neg h12]
    obtain ⟨t3, ht3⟩ := spi_mmc_poll_resp_trace env
      (spi_mmc_resp_size (mmc_cmd_get_resp_type msg.cmd)) 16
      (sendPacketBytes env (cmdPacketOf msg)
        { st with trace := st.trace ++ [Ev.cmd msg.cmd msg.arg (cmdPacketOf msg)] })
    refine ⟨t2 ++ t3, ?_⟩
    simp [ht3, ht2]

theorem waitTokenLoop_trace (env : SpiEnv) (token : Nat) :
    ∀ (fuel : Nat) (st : SpiSt),
      ∃ t, ((waitTokenLoop env token fuel st).2).trace = st.trace ++ t := by
  intro fuel
  induction fuel with
  | zero =>
    intro st
    simp only [waitTokenLoop]
    by_cases h : (spi_mmc_transfer env st 1).2.1.headD 0xff = token
    · rw [if_pos h]
      exact ⟨[Ev.xfer 1 st.holding], by simp [spi_mmc_transfer_trace]⟩
    · rw [if_neg h]
      exact ⟨[Ev.xfer 1 st.holding], by simp [spi_mmc_transfer_trace]⟩
  | succ f ih =>
    intro st
    simp only [waitTokenLoop]
    by_cases h : (spi_mmc_transfer env st 1).2.1.headD 0xff = token
    · rw [if_pos h]
      exact ⟨[Ev.xfer 1 st.holding], by simp [spi_mmc_transfer_trace]⟩
    · rw [if_neg h]
      obtain ⟨t, ht⟩ := ih ((spi_mmc_transfer env st 1).2.2)
      exact ⟨Ev.xfer 1 st.holding :: t,
        by simp [ht, spi_mmc_transfer_trace]⟩

theorem spi_mmc_read_block_trace (env : SpiEnv) (st : SpiSt) (len : Nat) :
    ∃ t, ((spi_mmc_read_block env st len).2.2).trace = st.trace ++ t := by
  simp only [spi_mmc_read_block, spi_mmc_wait_token]
  obtain ⟨t1, ht1⟩ := waitTokenLoop_trace env SPI_MMC_START_BLOCK env.tokenFuel st
  by_cases h1 : (waitTokenLoop env SPI_MMC_START_BLOCK env.tokenFuel st).1 ≠ 0
  · rw [if_pos h1]
    exact ⟨t1, ht1⟩
  · rw [if_neg h1]
    by_cases h2 : (spi_mmc_transfer env
        (waitTokenLoop env SPI_MMC_START_BLOCK env.tokenFuel st).2 len).1 ≠ 0
    · rw [if_pos h2]
      exact ⟨t1 ++ [Ev.xfer len (waitTokenLoop env SPI_MMC_START_BLOCK
          env.tokenFuel st).2.holding],
        by simp [spi_mmc_transfer_trace, ht1]⟩
    · rw [if_neg h2]
      refine ⟨t1 ++ Ev.xfer len (waitTokenLoop env SPI_MMC_START_BLOCK
          env.tokenFuel st).2.holding ::
        Ev.xfer 1 (spi_mmc_transfer env (waitTokenLoop env SPI_MMC_START_BLOCK
          env.tokenFuel st).2 len).2.2.holding ::
        [Ev.xfer 1 (spi_mmc_transfer env (spi_mmc_transfer env
          (waitTokenLoop env SPI_MMC_START_BLOCK env.tokenFuel st).2 len).2.2
            1).2.2.holding], ?_⟩
      simp [spi_mmc_transfer_trace, ht1]

theorem readBlocksLoop_trace (env : SpiEnv) (blksize : Nat) :
    ∀ (n : Nat) (st : SpiSt),
      ∃ t, ((readBlocksLoop env blksize n st).2.2).trace = st.trace ++ t := by
  intro n
  induction n with
  | zero => intro st; exact ⟨[], by simp [readBlocksLoop]⟩
  | succ m ih =>
    intro st
    simp only [readBlocksLoop]
    obtain ⟨t1, ht1⟩ := spi_mmc_read_block_trace env st blksize
    by_cases h : (spi_mmc_read_block env st blksize).1 ≠ 0
    · rw [if_pos h]
      exact ⟨t1, ht1⟩
    · rw [if_neg h]
      obtain ⟨t2, ht2⟩ := ih ((spi_mmc_read_block env st blksize).2.2)
      exact ⟨t1 ++ t2, by simp [ht2, ht1]⟩

theorem spi_mmc_send_cmd_false (env : SpiEnv) (msg : SpiMmcMessage)
    (st : SpiSt) :
    spi_mmc_send_cmd env msg false st = spi_mmc_send_cmd_raw env msg st := by
  simp [spi_mmc_send_cmd]

/-! ### Claim theorems -/

set_option maxRecDepth 100000

/-- C1: Against `env1` — a card that answers every CMD0 with a valid R1
whose idle bit is clear, then negotiates normally — the CMD0 reset step
of bring-up exhausts its 10 retries and `spi_mmc_send_reset` reports
a negated ETIMEDOUT (first conjunct, evaluated at exactly the state bring-up
reaches before the reset), yet `spi_mmc_probe` returns 0 and marks the
card initialized, because `spi_mmc_init` discards the reset result
(`spi_mmc.c:726`).  The claim says such a run must return
`Error::Timeout` with `initialized` still false; the code folds the
reset failure into a success return. -/
theorem C1_reset_failure_swallowed :
    (spi_mmc_send_reset env1
        ((spi_mmc_send_msg env1 initMsg
          ((spi_mmc_send_msg env1 initMsg (spi_lock st0).2).2.2)).2.2)).1
      = -errTimedOut ∧
    (spi_mmc_probe env1 st0 dev0).1 = 0 ∧
    (spi_mmc_probe env1 st0 dev0).2.1.initialized = true := by
  decide

/-- C2 (counterexample): in the `env2` run every data phase of the
2-block read succeeds and all 1024 payload bytes are delivered, but the
final CMD12 gets no response; `spi_mmc_read_blocks` returns `-errIo`
instead of the success the claim promises. -/
theorem C2_counterexample_stop_error_returned :
    (spi_mmc_read_blocks env2 st0 dev2 0 2).1 = -errIo ∧
    (spi_mmc_read_blocks env2 st0 dev2 0 2).2.1 = List.replicate 1024 0xAB ∧
    (-errIo : Int) ≠ 0 := by
  decide

/-- C3: the OCR is never read during the SD2 capacity probe.  The
response table maps CMD58 to a 1-byte R1 (last conjunct), so against
`env3 b58` — whose OCR top byte `0xC0` (power-up done + CCS set) waits
on the wire from slot 42 on — the driver consumes exactly 42 bytes and
stops: with a clean CMD58 status (`b58 = 0x00`) the CCS-bearing card
stays SD2, never SDHC, and with the R1 parameter-error bit
(`b58 = 0x40`) it is upgraded to SDHC although no OCR byte was ever
transferred.  The claim's "upgrade iff the OCR CCS bit is set" does not
describe the code; the code's own `read OCR register` comment confirms
the claim's intent. -/
theorem C3_ocr_never_read :
    ((spi_mmc_voltage_select (env3 0x00) st0 dev0).1 = 0 ∧
     (spi_mmc_voltage_select (env3 0x00) st0 dev0).2.1.version = CardType.sd2 ∧
     (spi_mmc_voltage_select (env3 0x00) st0 dev0).2.2.pos = 42) ∧
    ((spi_mmc_voltage_select (env3 0x40) st0 dev0).1 = 0 ∧
     (spi_mmc_voltage_select (env3 0x40) st0 dev0).2.1.version = CardType.sdhc ∧
     (spi_mmc_voltage_select (env3 0x40) st0 dev0).2.2.pos = 42) ∧
    spi_mmc_resp_size (mmc_cmd_get_resp_type MMC_CMD_SPI_READ_OCR) = 1 := by
  decide

/-- C4: against `env4` — a card that answers every ACMD41 with R1 `0x01`
(busy/idle bit still set) — bring-up's operating-condition poll issues
exactly one ACMD41 (the wire trace holds a single command with index 41)
and `spi_mmc_voltage_select` returns 0, because the loop repeats only
while the response byte is `0xFF`; it neither keeps polling for the full
budget of 10 nor returns `-errTimedOut` while the card is busy.  The
second conjunct pins the single ACMD41's captured response byte to the
busy `0x01` at exactly the state where the loop issues it. -/
theorem C4_busy_poll_exits_early :
    ((spi_mmc_voltage_select env4 st0 dev0).1 = 0 ∧
     cmdIdxList (spi_mmc_voltage_select env4 st0 dev0).2.2.trace
       = [8, 55, 41, 58]) ∧
    (spi_mmc_send_cmd env4
        (SPI_MMC_CMD SD_CMD_APP_SEND_OP_COND 0x40000000) true
        (spi_mmc_send_cmd env4
          (SPI_MMC_CMD_CRC MMC_CMD_SEND_EXT_CSD 0x1AA 0x43) false st0).2.2).2.1
      = [0x01] := by
  decide

/-- C5 (counterexample): a card whose R7 low response byte is `0x22` —
neither an illegal-command answer nor an echo of the `0x1AA` check
pattern — is classified SD2 and bring-up continues successfully, where
the claim demands an `Error::Io` failure. -/
theorem C5_counterexample_partial_echo_accepted :
    (spi_mmc_voltage_select (env5 0x22) st0 dev0).1 = 0 ∧
    (spi_mmc_voltage_select (env5 0x22) st0 dev0).2.1.version
      = CardType.sd2 ∧
    (0 : Int) ≠ -errIo := by
  decide

/-- C5 (amended): in the voltage-check step, an illegal-command answer
is classified SD1; a card whose R7 low response byte shares any set bit
with the check pattern's low byte (`byte AND 0xAA ≠ 0`, e.g. the exact
echo `0xAA` but also `0x22`) is classified SD2; only an R7 low byte with
no bit of `0xAA` makes bring-up fail with `Error::Io`. -/
theorem C5_amended_echo_mask_classification :
    ((spi_mmc_voltage_select env5i st0 dev0).1 = 0 ∧
     (spi_mmc_voltage_select env5i st0 dev0).2.1.version = CardType.sd1) ∧
    ∀ b : Nat, b < 256 →
      (b &&& 0xAA ≠ 0 →
        (spi_mmc_voltage_select (env5 b) st0 dev0).1 = 0 ∧
        (spi_mmc_voltage_select (env5 b) st0 dev0).2.1.version
          = CardType.sd2) ∧
      (b &&& 0xAA = 0 →
        (spi_mmc_voltage_select (env5 b) st0 dev0).1 = -errIo ∧
        (spi_mmc_voltage_select (env5 b) st0 dev0).2.1.version
          = CardType.unknown) := by
  decide

/-- C5 (witness): the amended classification applied at the concrete low
byte `0x22`. -/
theorem C5_amended_witness :
    (0x22 : Nat) < 256 ∧ (0x22 : Nat) &&& 0xAA ≠ 0 ∧
    ((spi_mmc_voltage_select (env5 0x22) st0 dev0).1 = 0 ∧
     (spi_mmc_voltage_select (env5 0x22) st0 dev0).2.1.version
       = CardType.sd2) :=
  ⟨by decide, by decide,
    (C5_amended_echo_mask_classification.2 0x22 (by decide)).1 (by decide)⟩

/-- C7: the CSD structure-version field is extracted with swapped
`msb`/`lsb` arguments (`ext_bits csd 126 127`, a zero-width field), so
it always reads 0 and the version-1 decode path is unreachable: for the
version-1 register `csdV1` (the correct extraction `[127:126]` yields 1
and `C_SIZE = 0x1000`), `spi_mmc_sectors` applies the version-0 formula
and returns 0 instead of `(C_SIZE + 1) * 1024 = 4195328`.  The claim's
version-0 arm is exact: the spec's synthetic v0 register `csdV0`
(`C_SIZE = 0x3AB`, `C_SIZE_MULT = 2`, `READ_BL_LEN = 9`) decodes to
`(0x3AB + 1) * 2 ^ 4 * 2 ^ 9 / 512 = 15040`. -/
theorem C7_csd_v1_branch_unreachable :
    ext_bits csdV1 126 127 = 0 ∧
    ext_bits csdV1 127 126 = 1 ∧
    ext_bits csdV1 69 48 = 0x1000 ∧
    (spi_mmc_sectors (env7 csdV1) st0 dev7).1 = 0 ∧
    (0 : Nat) ≠ (0x1000 + 1) <<< 10 ∧
    (spi_mmc_sectors (env7 csdV0) st0 dev7).1
      = (0x3AB + 1) * (1 <<< (2 + 2)) * (1 <<< 9) / 512 := by
  decide

/-- C9: when another task holds the bus semaphore (`st9.sem = false`),
`spi_mmc_read_blocks` ignores the failed `spi_lock` acquisition
(`spi_mmc.c:554` discards the `bool`), performs the entire single-block
transaction on the wire without holding the lock (every `xfer` event
carries `holding = false`), reports success with the full payload, and
finally `spi_unlock` releases a semaphore this task never acquired
(`sem` ends `true` although the other holder never released). -/
theorem C9_transfers_without_lock :
    (spi_mmc_read_blocks env9 st9 dev9 0 1).1 = 0 ∧
    (spi_mmc_read_blocks env9 st9 dev9 0 1).2.1 = List.replicate 512 0xCD ∧
    (spi_mmc_read_blocks env9 st9 dev9 0 1).2.2.trace =
      Ev.lock false :: Ev.cmd 17 0 [81, 0, 0, 0, 0, 255] ::
      Ev.xfer 1 false :: Ev.xfer 1 false :: Ev.xfer 1 false ::
      Ev.xfer 1 false :: Ev.xfer 1 false :: Ev.xfer 1 false ::
      Ev.xfer 1 false :: Ev.xfer 1 false :: Ev.xfer 512 false ::
      Ev.xfer 1 false :: Ev.xfer 1 false :: [Ev.unlock] ∧
    (spi_mmc_read_blocks env9 st9 dev9 0 1).2.2.sem = true := by
  decide

/-- C8: `spi_mmc_probe` is idempotent while the device is initialized —
a second call without an intervening deinit returns 0 immediately and
performs no hardware negotiation at all: the device, the wire position,
and the event trace are returned exactly as they were. -/
theorem C8_probe_idempotent (env : SpiEnv) (st : SpiSt) (dev : MmcDev)
    (h : dev.initialized = true) :
    spi_mmc_probe env st dev = (0, dev, st) := by
  simp [spi_mmc_probe, h]

/-- C8 (witness): the no-op second probe on an initialized device. -/
theorem C8_probe_idempotent_witness :
    devN.initialized = true ∧
    spi_mmc_probe envA st0 devN = (0, devN, st0) :=
  ⟨rfl, C8_probe_idempotent envA st0 devN rfl⟩

/-- C10: whenever the CMD9 exchange inside `spi_mmc_sectors` fails, or
CMD9 succeeds but the following 16-byte CSD transfer fails, the function
returns 0 and unconditionally overwrites `dev.num_blocks` with 0 —
for every starting device, including one whose `num_blocks` holds the
non-zero result of an earlier successful call, making the failure
indistinguishable from "not yet queried". -/
theorem C10_sector_failure_clears_cache (env : SpiEnv) (st : SpiSt)
    (dev : MmcDev)
    (h : (spi_mmc_send_cmd_raw env (SPI_MMC_CMD MMC_CMD_SEND_CSD 0)
            (spi_lock st).2).1 ≠ 0 ∨
         (spi_mmc_transfer env
            (spi_mmc_send_cmd_raw env (SPI_MMC_CMD MMC_CMD_SEND_CSD 0)
              (spi_lock st).2).2.2 16).1 ≠ 0) :
    (spi_mmc_sectors env st dev).1 = 0 ∧
    (spi_mmc_sectors env st dev).2.1.num_blocks = 0 := by
  simp only [spi_mmc_sectors, spi_mmc_send_cmd_false]
  rcases h with h9 | hc
  · rw [if_pos h9]
    exact ⟨rfl, rfl⟩
  · by_cases h9 : (spi_mmc_send_cmd_raw env (SPI_MMC_CMD MMC_CMD_SEND_CSD 0)
        (spi_lock st).2).1 ≠ 0
    · rw [if_pos h9]
      exact ⟨rfl, rfl⟩
    · rw [if_neg h9, if_pos hc]
      exact ⟨rfl, rfl⟩

/-- C10 (witness): against the dead card `envA` (no CMD9 response ever),
a device caching 7 blocks from an earlier call comes back with
`num_blocks = 0` and result 0. -/
theorem C10_sector_failure_clears_cache_witness :
    devN.num_blocks = 7 ∧
    ((spi_mmc_send_cmd_raw envA (SPI_MMC_CMD MMC_CMD_SEND_CSD 0)
        (spi_lock st0).2).1 ≠ 0) ∧
    ((spi_mmc_sectors envA st0 devN).1 = 0 ∧
     (spi_mmc_sectors envA st0 devN).2.1.num_blocks = 0) :=
  ⟨rfl, by decide,
    C10_sector_failure_clears_cache envA st0 devN (Or.inl (by decide))⟩

/-- C2 (amended): the CMD12 status is folded into the return value of a
multi-block read, not merely logged: for every run in which the bounds
and initialization checks pass, the read command is accepted, and every
per-block data phase succeeds, `spi_mmc_read_blocks` returns exactly the
status of the CMD12 stop command (so a stop failure turns an otherwise
clean read into that error), while still delivering all payload bytes
collected by the per-block loop. -/
theorem C2_amended_stop_status_folded (env : SpiEnv) (st : SpiSt)
    (dev : MmcDev) (blk len : Nat) (e : Int)
    (hlen : len > 1)
    (hbound : (blk + len) % 2 ^ 32 ≤ dev.num_blocks)
    (hspi : env.spiInitialized = true) (hinit : dev.initialized = true)
    (hcmd : (spi_mmc_send_cmd_raw env
        (SPI_MMC_CMD MMC_CMD_READ_MULTIPLE_BLOCK
          (if dev.version = CardType.sdhc then blk
           else (blk * dev.blksize) % 2 ^ 32)) (spi_lock st).2).1 = 0)
    (hdata : (readBlocksLoop env dev.blksize len
        (spi_mmc_send_cmd_raw env
          (SPI_MMC_CMD MMC_CMD_READ_MULTIPLE_BLOCK
            (if dev.version = CardType.sdhc then blk
             else (blk * dev.blksize) % 2 ^ 32)) (spi_lock st).2).2.2).1 = 0)
    (hstop : (spi_mmc_send_cmd_raw env
        (SPI_MMC_CMD MMC_CMD_STOP_TRANSMISSION 0)
        (readBlocksLoop env dev.blksize len
          (spi_mmc_send_cmd_raw env
            (SPI_MMC_CMD MMC_CMD_READ_MULTIPLE_BLOCK
              (if dev.version = CardType.sdhc then blk
               else (blk * dev.blksize) % 2 ^ 32)) (spi_lock st).2).2.2).2.2).1
      = e) :
    (spi_mmc_read_blocks env st dev blk len).1 = e ∧
    (spi_mmc_read_blocks env st dev blk len).2.1 =
      (readBlocksLoop env dev.blksize len
        (spi_mmc_send_cmd_raw env
          (SPI_MMC_CMD MMC_CMD_READ_MULTIPLE_BLOCK
            (if dev.version = CardType.sdhc then blk
             else (blk * dev.blksize) % 2 ^ 32)) (spi_lock st).2).2.2).2.1 := by
  have hb : ¬(blk + len) % 2 ^ 32 > dev.num_blocks := not_lt.mpr hbound
  have hk : ¬(¬env.spiInitialized ∨ ¬dev.initialized) := by
    simp [hspi, hinit]
  rw [show (2 : Nat) ^ 32 = 4294967296 from by norm_num] at hcmd hdata hstop
  simp only [spi_mmc_read_blocks, spi_mmc_send_cmd_false]
  rw [if_neg hb, if_neg hk, if_pos hlen, if_pos hlen]
  simp [hcmd, hdata, hstop]

/-- C2 (witness): the amended rule applied to the concrete `env2` run —
all data delivered, CMD12 unanswered, result `-errIo`. -/
theorem C2_amended_stop_status_folded_witness :
    (2 : Nat) > 1 ∧
    ((spi_mmc_read_blocks env2 st0 dev2 0 2).1 = -errIo ∧
     (spi_mmc_read_blocks env2 st0 dev2 0 2).2.1 =
      (readBlocksLoop env2 dev2.blksize 2
        (spi_mmc_send_cmd_raw env2
          (SPI_MMC_CMD MMC_CMD_READ_MULTIPLE_BLOCK
            (if dev2.version = CardType.sdhc then 0
             else (0 * dev2.blksize) % 2 ^ 32)) (spi_lock st0).2).2.2).2.1) :=
  ⟨by decide,
    C2_amended_stop_status_folded env2 st0 dev2 0 2 (-errIo) (by decide)
      (by decide) (by decide) (by decide) (by decide) (by decide) (by decide)⟩

/-- C6: address translation of the read path.  For every environment,
driver state, and initialized in-range request on a 512-byte-block
device (with the byte address representable in the 32-bit argument), the
first command issued after taking the bus lock is CMD17/CMD18 whose
32-bit argument is the block index itself for an SDHC card and the byte
address `blk * 512` for any other classification. -/
theorem C6_read_address_translation (env : SpiEnv) (st : SpiSt)
    (dev : MmcDev) (blk len : Nat)
    (hbs : dev.blksize = 512) (hfit : blk * 512 < 2 ^ 32)
    (hbound : (blk + len) % 2 ^ 32 ≤ dev.num_blocks)
    (hspi : env.spiInitialized = true) (hinit : dev.initialized = true) :
    ∃ p t, (spi_mmc_read_blocks env st dev blk len).2.2.trace =
      st.trace ++ Ev.lock st.sem ::
        Ev.cmd (if len > 1 then MMC_CMD_READ_MULTIPLE_BLOCK
                else MMC_CMD_READ_SINGLE_BLOCK)
          (if dev.version = CardType.sdhc then blk else blk * 512) p :: t := by
  have hb : ¬(blk + len) % 2 ^ 32 > dev.num_blocks := not_lt.mpr hbound
  have hk : ¬(¬env.spiInitialized ∨ ¬dev.initialized) := by
    simp [hspi, hinit]
  have harg : (blk * dev.blksize) % 2 ^ 32 = blk * 512 := by
    rw [hbs]; exact Nat.mod_eq_of_lt hfit
  have hlockt := spi_lock_trace st
  simp only [spi_mmc_read_blocks, spi_mmc_send_cmd_false]
  rw [if_neg hb, if_neg hk, harg]
  set rc : SpiMmcMessage := SPI_MMC_CMD
    (if len > 1 then MMC_CMD_READ_MULTIPLE_BLOCK
     else MMC_CMD_READ_SINGLE_BLOCK)
    (if dev.version = CardType.sdhc then blk else blk * 512) with hrc
  obtain ⟨t1, ht1⟩ := spi_mmc_send_cmd_raw_trace env rc (spi_lock st).2
  by_cases h1 : (spi_mmc_send_cmd_raw env rc (spi_lock st).2).1 ≠ 0
  · rw [if_pos h1]
    refine ⟨cmdPacketOf rc, t1 ++ [Ev.unlock], ?_⟩
    simp only [spi_unlock_trace, ht1, hlockt]
    simp [hrc, SPI_MMC_CMD, SPI_MMC_CMD_CRC]
  · rw [if_neg h1]
    obtain ⟨t2, ht2⟩ := readBlocksLoop_trace env dev.blksize len
      (spi_mmc_send_cmd_raw env rc (spi_lock st).2).2.2
    by_cases h2 : len > 1
    · rw [if_pos h2]
      obtain ⟨t3, ht3⟩ := spi_mmc_send_cmd_raw_trace env
        (SPI_MMC_CMD MMC_CMD_STOP_TRANSMISSION 0)
        (readBlocksLoop env dev.blksize len
          (spi_mmc_send_cmd_raw env rc (spi_lock st).2).2.2).2.2
      refine ⟨cmdPacketOf rc, t1 ++ t2 ++
        Ev.cmd MMC_CMD_STOP_TRANSMISSION 0
          (cmdPacketOf (SPI_MMC_CMD MMC_CMD_STOP_TRANSMISSION 0)) :: t3
        ++ [Ev.unlock], ?_⟩
      simp only [spi_unlock_trace, ht3, ht2, ht1, hlockt]
      simp [hrc, SPI_MMC_CMD, SPI_MMC_CMD_CRC]
    · rw [if_neg h2]
      refine ⟨cmdPacketOf rc, t1 ++ t2 ++ [Ev.unlock], ?_⟩
      simp only [spi_unlock_trace, ht2, ht1, hlockt]
      simp [hrc, SPI_MMC_CMD, SPI_MMC_CMD_CRC]

/-- C6 (witness): reading block 5 on an initialized SD2 card issues a
command whose argument is `5 * 512 = 2560`. -/
theorem C6_read_address_translation_witness :
    dev9.blksize = 512 ∧
    ∃ p t, (spi_mmc_read_blocks env9 st0 dev9 5 1).2.2.trace =
      st0.trace ++ Ev.lock st0.sem ::
        Ev.cmd (if 1 > 1 then MMC_CMD_READ_MULTIPLE_BLOCK
                else MMC_CMD_READ_SINGLE_BLOCK)
          (if dev9.version = CardType.sdhc then 5 else 5 * 512) p :: t :=
  ⟨rfl, C6_read_address_translation env9 st0 dev9 5 1 rfl (by norm_num)
    (by decide) rfl rfl⟩

end Aurora
